import Mathlib

/-!
Verification of `archivematicaselenium.py`, the Selenium-based test harness
for the Archivematica dashboard.

The Python code is shallowly embedded here.  Python strings are modelled as
`List Char` (`PyStr`), so that every string primitive that the source uses
(`strip`, `split`, `split(':')`, `lower`, `replace`, slicing, `split('" "')`)
is a structurally recursive, kernel-computable Lean function with the same
semantics.  Python dictionaries are modelled as insertion-ordered association
lists (`upsert`/`alookup`), matching CPython semantics: updating an existing
key keeps its position, a new key is appended.  Fallible Python code (raised
exceptions) is modelled with `Except PyErr`; the DOM read by Selenium is
modelled as explicit snapshot data, and DOM state that changes while the
harness polls is modelled as a function `Nat → Dom` from poll instants to
snapshots, with a fuel parameter standing for the unbounded recursion of the
source's polling helpers.
-/

namespace ArchSel

/-- Python strings, modelled as lists of characters. -/
abbrev PyStr := List Char

/-- Coerce a Lean string literal to the `PyStr` model. -/
def pys (s : String) : PyStr := s.data

/-- Python exceptions that the embedded fragments can raise.  `indexError`
carries the label of the failing subscript so that distinct out-of-range
accesses in one function stay distinguishable. -/
inductive PyErr where
  | nameError
  | keyError
  | valueError
  | indexError (site : String)
  | attributeError
  | timeoutError
deriving DecidableEq, Repr

instance {ε α : Type} [DecidableEq ε] [DecidableEq α] : DecidableEq (Except ε α) := fun
  | .ok a, .ok b => decidable_of_iff (a = b) (by simp)
  | .ok _, .error _ => isFalse (by simp)
  | .error _, .ok _ => isFalse (by simp)
  | .error e, .error f => decidable_of_iff (e = f) (by simp)

/-- `str.strip()`: drop whitespace from both ends. -/
def pyTrim (s : PyStr) : PyStr :=
  ((s.dropWhile Char.isWhitespace).reverse.dropWhile Char.isWhitespace).reverse

/-- Split a character list at every character satisfying `p`, keeping empty
segments (the semantics of Python `str.split(sep)` for one-character `sep`,
with `p` matching exactly `sep`). -/
def splitOnPredChar (p : Char → Bool) : PyStr → List PyStr
  | [] => [[]]
  | c :: rest =>
    if p c then [] :: splitOnPredChar p rest
    else
      match splitOnPredChar p rest with
      | r :: rs => (c :: r) :: rs
      | [] => [[c]]

/-- Python `str.split(c)` for a one-character separator. -/
def pySplitChar (c : Char) (s : PyStr) : List PyStr :=
  splitOnPredChar (fun x => x == c) s

/-- Python `str.split()` with no argument: whitespace-tokenize, discarding
empty tokens. -/
def pySplitWs (s : PyStr) : List PyStr :=
  (splitOnPredChar Char.isWhitespace s).filter (fun t => t ≠ [])

/-- Python `str.lower()` (ASCII view, which is all the harness compares). -/
def pyLower (s : PyStr) : PyStr := s.map Char.toLower

/-- Python `str.replace(' ', '_')`. -/
def pyUnderscore (s : PyStr) : PyStr :=
  s.map (fun c => if c = ' ' then '_' else c)

/-- Python `s.split('" "')`: split on the literal three-character sequence
quote, space, quote, scanning left to right (exactly the separator the source
passes at line 566). -/
def splitQSQ : PyStr → PyStr → List PyStr
  | acc, '"' :: ' ' :: '"' :: rest => acc.reverse :: splitQSQ [] rest
  | acc, c :: rest => splitQSQ (c :: acc) rest
  | acc, [] => [acc.reverse]

/-- Values stored in a parsed task record: every field is a string except
`arguments`, which is a list of strings. -/
inductive Val where
  | str (s : PyStr)
  | list (ss : List PyStr)
deriving DecidableEq, Repr

/-- Insertion-ordered dictionary write, CPython semantics: an existing key is
updated in place, a new key is appended at the end. -/
def upsert {κ ν : Type} [DecidableEq κ] : List (κ × ν) → κ → ν → List (κ × ν)
  | [], k, v => [(k, v)]
  | (k1, v1) :: rest, k, v =>
    if k1 = k then (k, v) :: rest else (k1, v1) :: upsert rest k v

/-- Dictionary lookup. -/
def alookup {κ ν : Type} [DecidableEq κ] : List (κ × ν) → κ → Option ν
  | [], _ => none
  | (k1, v) :: rest, k => if k1 = k then some v else alookup rest k

/-- A task record under construction (the source's `row_dict`). -/
abbrev Dict := List (PyStr × Val)

/-- The `'tasks'` mapping of the source's `table_dict`: file UUID → record. -/
abbrev Tasks := List (Val × Dict)

/-! ## Table scraper (`parse_tasks_table` and the row processors)

A `<tr>` of the tasks table is modelled by the structural facts that
`get_tasks_row_type` inspects (its `class` attribute and whether it contains a
`td.stdout` / `td.stderror` cell) together with the text of its `<td>` and of
its `<pre>` child. -/

structure Row where
  classAttr : PyStr
  hasStdoutTd : Bool
  hasStderrTd : Bool
  tdText : PyStr
  preText : PyStr
deriving DecidableEq, Repr

/-- `get_tasks_row_type` (source lines 581-600): a non-empty stripped `class`
attribute marks a header row; otherwise a `td.stdout` cell marks stdout, a
`td.stderror` cell marks stderr, and anything else is a command row. -/
def get_tasks_row_type (r : Row) : String :=
  if pyTrim r.classAttr ≠ [] then "header"
  else if r.hasStdoutTd then "stdout"
  else if r.hasStderrTd then "stderr"
  else "command"

/-- One line of a header row's cell text (body of the loop at source lines
543-551): strip, drop one optional leading `(` and trailing `)`, split at
`:` into exactly an attribute and a value (any other arity is a Python
unpacking `ValueError`), and store under the lower-cased,
space-to-underscore-normalized attribute name. -/
def process_task_header_line (row_dict : Dict) (line : PyStr) : Except PyErr Dict :=
  let line := pyTrim line
  let line := if line.head? = some '(' then line.drop 1 else line
  let line := if line.getLast? = some ')' then line.dropLast else line
  match (pySplitChar ':' line).map pyTrim with
  | [attr, val] => .ok (upsert row_dict (pyUnderscore (pyLower attr)) (.str val))
  | _ => .error .valueError

/-- `process_task_header_row` (source lines 541-552): parse every line of the
stripped cell text into the record. -/
def process_task_header_row (cellText : PyStr) (row_dict : Dict) : Except PyErr Dict :=
  (pySplitChar '\n' (pyTrim cellText)).foldlM process_task_header_line row_dict

/-- `process_task_command_row` (source lines 554-567): take segment 1 of the
colon-split cell text, whitespace-tokenize it, keep the first token as the
command, rejoin the remaining tokens with single spaces, strip one leading and
one trailing `"` (each subscript can raise `IndexError` on an empty string),
and split the result on the literal sequence `" "` into the argument list. -/
def process_task_command_row (cellText : PyStr) (row_dict : Dict) : Except PyErr Dict :=
  match (pySplitChar ':' (pyTrim cellText)).get? 1 with
  | none => .error (.indexError "command_text_split")
  | some command_text =>
    match pySplitWs command_text with
    | [] => .error .valueError
    | command :: args =>
      let argumentsStr := List.intercalate [' '] args
      match argumentsStr with
      | [] => .error (.indexError "arguments_first_char")
      | a0 :: arest =>
        let argumentsStr := if a0 = '"' then arest else a0 :: arest
        match argumentsStr.getLast? with
        | none => .error (.indexError "arguments_last_char")
        | some alast =>
          let argumentsStr := if alast = '"' then argumentsStr.dropLast else argumentsStr
          .ok (upsert (upsert row_dict (pys "command") (.str command))
                (pys "arguments") (.list (splitQSQ [] argumentsStr)))

/-- `process_task_stdout_row` (source lines 569-573). -/
def process_task_stdout_row (preText : PyStr) (row_dict : Dict) : Dict :=
  upsert row_dict (pys "stdout") (.str (pyTrim preText))

/-- `process_task_stderr_row` (source lines 575-579). -/
def process_task_stderr_row (preText : PyStr) (row_dict : Dict) : Dict :=
  upsert row_dict (pys "stderr") (.str (pyTrim preText))

/-- The row loop of `parse_tasks_table` (source lines 511-522), with the
`tasks` mapping and the pending `row_dict` threaded explicitly.  On a header
row the pending record, when non-empty, is flushed under its `file_uuid` field
(a missing field is a Python `KeyError`), and a fresh record is started from
the header's cell text. -/
def parse_tasks_rows : List Row → Tasks → Dict → Except PyErr (Tasks × Dict)
  | [], tasks, row_dict => .ok (tasks, row_dict)
  | row :: rest, tasks, row_dict =>
    if get_tasks_row_type row = "header" then
      match (if row_dict = [] then Except.ok tasks
             else
               match alookup row_dict (pys "file_uuid") with
               | some v => Except.ok (upsert tasks v row_dict)
               | none => Except.error PyErr.keyError) with
      | .error e => .error e
      | .ok tasks1 =>
        match process_task_header_row row.tdText [] with
        | .error e => .error e
        | .ok rd1 => parse_tasks_rows rest tasks1 rd1
    else if get_tasks_row_type row = "command" then
      match process_task_command_row row.tdText row_dict with
      | .error e => .error e
      | .ok rd1 => parse_tasks_rows rest tasks rd1
    else if get_tasks_row_type row = "stdout" then
      parse_tasks_rows rest tasks (process_task_stdout_row row.preText row_dict)
    else
      parse_tasks_rows rest tasks (process_task_stderr_row row.preText row_dict)

/-- The unconditional final flush at source line 523:
`table_dict['tasks'][row_dict['file_uuid']] = row_dict` — run after the row
loop with no emptiness guard, so an empty pending record raises `KeyError`. -/
def flush_final (tasks : Tasks) (row_dict : Dict) : Except PyErr Tasks :=
  match alookup row_dict (pys "file_uuid") with
  | some v => .ok (upsert tasks v row_dict)
  | none => .error .keyError

/-- One rendered page of the paginated tasks view: its table rows and the
`a.btn` link buttons (text, href) that the pagination scan iterates. -/
structure Page where
  rows : List Row
  linkButtons : List (PyStr × PyStr)
deriving DecidableEq, Repr

/-- The pagination scan at source lines 524-528: the last `a.btn` whose
stripped text is `Next Page` supplies the next URL. -/
def find_next_link (btns : List (PyStr × PyStr)) : Option PyStr :=
  btns.foldl
    (fun acc b => if pyTrim b.1 = pys "Next Page" then some b.2 else acc) none

/-- `parse_tasks_table` (source lines 502-532) over the sequence of pages the
site serves: parse the current page's rows starting from an empty pending
record, run the final flush, then recurse onto the next page while a
`Next Page` link is present.  Only the `'tasks'` component of the source's
`table_dict` is modelled; its `'job_output'` entry is written before this
function is called and never touched by it. -/
def parse_tasks_table : List Page → Tasks → Except PyErr Tasks
  | [], tasks => .ok tasks
  | p :: rest, tasks =>
    match parse_tasks_rows p.rows tasks [] with
    | .error e => .error e
    | .ok (tasks1, row_dict) =>
      match flush_final tasks1 row_dict with
      | .error e => .error e
      | .ok tasks2 =>
        match find_next_link p.linkButtons with
        | some _ => parse_tasks_table rest tasks2
        | none => .ok tasks2

/-! ## Row groups

A task is rendered as a header row followed by its non-header rows.  The
following definitions package that shape so the scraper theorems can
quantify over arbitrary well-formed tables. -/

structure TaskGroup where
  headerRow : Row
  bodyRows : List Row
deriving DecidableEq, Repr

def groupRows (g : TaskGroup) : List Row := g.headerRow :: g.bodyRows

def tableRows (gs : List TaskGroup) : List Row := (gs.map groupRows).flatten

/-- Processing of one non-header row, exactly as dispatched by the loop of
`parse_tasks_table` (source lines 517-522). -/
def process_body_row (row_dict : Dict) (r : Row) : Except PyErr Dict :=
  if get_tasks_row_type r = "command" then process_task_command_row r.tdText row_dict
  else if get_tasks_row_type r = "stdout" then .ok (process_task_stdout_row r.preText row_dict)
  else .ok (process_task_stderr_row r.preText row_dict)

def foldBody : List Row → Dict → Except PyErr Dict
  | [], d => .ok d
  | r :: rest, d =>
    match process_body_row d r with
    | .error e => .error e
    | .ok d1 => foldBody rest d1

/-- The record a group parses to, in isolation. -/
def process_group (g : TaskGroup) : Except PyErr Dict :=
  match process_task_header_row g.headerRow.tdText [] with
  | .error e => .error e
  | .ok d => foldBody g.bodyRows d

/-- A well-formed group paired with its parse: the header row classifies as
`header`, no body row does, and the group parses without error to a record
whose `file_uuid` field is the group's file UUID. -/
abbrev GroupSpec (g : TaskGroup) (p : PyStr × Dict) : Prop :=
  get_tasks_row_type g.headerRow = "header" ∧
  (∀ r ∈ g.bodyRows, get_tasks_row_type r ≠ "header") ∧
  process_group g = .ok p.2 ∧
  alookup p.2 (pys "file_uuid") = some (.str p.1)

/-- Parsing one page's rows followed by the unconditional final flush. -/
def scrape_rows (rows : List Row) (tasks : Tasks) (row_dict : Dict) : Except PyErr Tasks :=
  match parse_tasks_rows rows tasks row_dict with
  | .ok (t1, r1) => flush_final t1 r1
  | .error e => .error e

def flushInto (tasks : Tasks) (p : PyStr × Dict) : Tasks := upsert tasks (.str p.1) p.2

def expectedTasks (tasks : Tasks) (ps : List (PyStr × Dict)) : Tasks :=
  ps.foldl flushInto tasks

/-! ### Scraper lemmas -/

theorem alookup_nil_ne {κ ν : Type} [DecidableEq κ] {d : List (κ × ν)} {k : κ} {v : ν}
    (h : alookup d k = some v) : d ≠ [] := by
  intro hd; subst hd; simp [alookup] at h

theorem alookup_append {κ ν : Type} [DecidableEq κ] (t1 t2 : List (κ × ν)) (k : κ) :
    alookup (t1 ++ t2) k =
      match alookup t1 k with
      | some v => some v
      | none => alookup t2 k := by
  induction t1 with
  | nil => simp [alookup]
  | cons p t1 ih =>
    obtain ⟨k1, v1⟩ := p
    by_cases h : k1 = k <;> simp [alookup, h, ih]

theorem upsert_append_fresh {κ ν : Type} [DecidableEq κ] (t : List (κ × ν)) (k : κ) (v : ν)
    (h : alookup t k = none) : upsert t k v = t ++ [(k, v)] := by
  induction t with
  | nil => simp [upsert]
  | cons p t ih =>
    obtain ⟨k1, v1⟩ := p
    by_cases hk : k1 = k
    · simp [alookup, hk] at h
    · simp [alookup, hk] at h
      simp [upsert, hk, ih h]

/-- A run of non-header rows is processed exactly by `foldBody`, with the
`tasks` mapping untouched. -/
theorem parse_rows_body (body : List Row) (rest : List Row) (tasks : Tasks) (d : Dict)
    (h : ∀ r ∈ body, get_tasks_row_type r ≠ "header") :
    parse_tasks_rows (body ++ rest) tasks d =
      match foldBody body d with
      | .ok d1 => parse_tasks_rows rest tasks d1
      | .error e => .error e := by
  induction body generalizing d with
  | nil => simp [foldBody]
  | cons r body ih =>
    have hr : get_tasks_row_type r ≠ "header" := h r (by simp)
    have hb : ∀ x ∈ body, get_tasks_row_type x ≠ "header" := fun x hx => h x (by simp [hx])
    rw [List.cons_append]
    by_cases hc : get_tasks_row_type r = "command"
    · simp only [parse_tasks_rows, foldBody, process_body_row, if_neg hr, if_pos hc]
      cases hres : process_task_command_row r.tdText d with
      | error e => simp
      | ok d1 => simpa using ih d1 hb
    · by_cases hs : get_tasks_row_type r = "stdout"
      · simp only [parse_tasks_rows, foldBody, process_body_row,
          if_neg hr, if_neg hc, if_pos hs]
        exact ih _ hb
      · simp only [parse_tasks_rows, foldBody, process_body_row,
          if_neg hr, if_neg hc, if_neg hs]
        exact ih _ hb

/-- Main invariant of the scraping loop: with a non-empty pending record
carrying file UUID `u`, scraping the rows of well-formed groups `gs` flushes
the pending record and then produces one record per group. -/
theorem scrape_rows_gen (gs : List TaskGroup) (ps : List (PyStr × Dict))
    (tasks : Tasks) (d : Dict) (u : PyStr)
    (hgs : List.Forall₂ GroupSpec gs ps)
    (hd : alookup d (pys "file_uuid") = some (.str u)) :
    scrape_rows (tableRows gs) tasks d = .ok (expectedTasks (upsert tasks (.str u) d) ps) := by
  induction hgs generalizing tasks d u with
  | nil =>
    simp only [tableRows, List.map_nil, List.flatten, scrape_rows, parse_tasks_rows,
      flush_final, hd, expectedTasks, List.foldl_nil]
  | @cons g p gs ps hgp hgs ih =>
    obtain ⟨hh, hb, hpg, hlk⟩ := hgp
    have hdne : d ≠ [] := alookup_nil_ne hd
    have htable : tableRows (g :: gs) = g.headerRow :: (g.bodyRows ++ tableRows gs) := by
      simp [tableRows, groupRows]
    rw [htable]
    cases hhdr : process_task_header_row g.headerRow.tdText [] with
    | error e => simp [process_group, hhdr] at hpg
    | ok dh =>
      have hfold : foldBody g.bodyRows dh = .ok p.2 := by
        simpa [process_group, hhdr] using hpg
      simp only [scrape_rows, parse_tasks_rows, if_pos hh, if_neg hdne, hd, hhdr]
      rw [parse_rows_body _ _ _ _ hb, hfold]
      have := ih (upsert tasks (.str u) d) p.2 p.1 hlk
      simp only [scrape_rows] at this
      rw [this]
      simp [expectedTasks, flushInto]

/-- Scraping a non-empty well-formed table from an empty pending record. -/
theorem scrape_rows_groups (g : TaskGroup) (gs : List TaskGroup)
    (ps : List (PyStr × Dict)) (tasks : Tasks)
    (hgs : List.Forall₂ GroupSpec (g :: gs) ps) :
    scrape_rows (tableRows (g :: gs)) tasks [] = .ok (expectedTasks tasks ps) := by
  cases hgs with
  | cons hgp htail =>
    rename_i p ps'
    obtain ⟨hh, hb, hpg, hlk⟩ := hgp
    have htable : tableRows (g :: gs) = g.headerRow :: (g.bodyRows ++ tableRows gs) := by
      simp [tableRows, groupRows]
    rw [htable]
    cases hhdr : process_task_header_row g.headerRow.tdText [] with
    | error e => simp [process_group, hhdr] at hpg
    | ok dh =>
      have hfold : foldBody g.bodyRows dh = .ok p.2 := by
        simpa [process_group, hhdr] using hpg
      simp only [scrape_rows, parse_tasks_rows, if_pos hh, if_true, hhdr]
      rw [parse_rows_body _ _ _ _ hb, hfold]
      have := scrape_rows_gen gs ps' tasks p.2 p.1 htail hlk
      simp only [scrape_rows] at this
      rw [this]
      simp [expectedTasks, flushInto]

/-- With pairwise-fresh keys, the accumulated mapping is a plain append of one
entry per group. -/
theorem expectedTasks_eq_append (ps : List (PyStr × Dict)) (tasks : Tasks)
    (hnd : (ps.map Prod.fst).Nodup)
    (hfresh : ∀ p ∈ ps, alookup tasks (Val.str p.1) = none) :
    expectedTasks tasks ps = tasks ++ ps.map (fun p => (Val.str p.1, p.2)) := by
  induction ps generalizing tasks with
  | nil => simp [expectedTasks]
  | cons p ps ih =>
    have h1 : upsert tasks (Val.str p.1) p.2 = tasks ++ [(Val.str p.1, p.2)] :=
      upsert_append_fresh _ _ _ (hfresh p (by simp))
    have hnd' : (ps.map Prod.fst).Nodup := (List.nodup_cons.mp hnd).2
    have hne : ∀ q ∈ ps, q.1 ≠ p.1 := by
      intro q hq heq
      exact (List.nodup_cons.mp hnd).1 (heq ▸ List.mem_map_of_mem Prod.fst hq)
    have hfresh' : ∀ q ∈ ps, alookup (tasks ++ [(Val.str p.1, p.2)]) (Val.str q.1) = none := by
      intro q hq
      rw [alookup_append, hfresh q (by simp [hq])]
      simp [alookup]
      intro habs
      exact hne q hq habs.symm
    calc expectedTasks tasks (p :: ps)
        = expectedTasks (tasks ++ [(Val.str p.1, p.2)]) ps := by
          simp [expectedTasks, flushInto, h1]
      _ = tasks ++ [(Val.str p.1, p.2)] ++ ps.map (fun p => (Val.str p.1, p.2)) :=
          ih _ hnd' hfresh'
      _ = tasks ++ (p :: ps).map (fun p => (Val.str p.1, p.2)) := by simp

/-- One step of the page recursion of `parse_tasks_table`. -/
theorem parse_tasks_table_cons (p : Page) (rest : List Page) (tasks : Tasks) :
    parse_tasks_table (p :: rest) tasks =
      match scrape_rows p.rows tasks [] with
      | .error e => .error e
      | .ok t2 =>
        match find_next_link p.linkButtons with
        | some _ => parse_tasks_table rest t2
        | none => .ok t2 := by
  simp only [parse_tasks_table, scrape_rows]
  cases parse_tasks_rows p.rows tasks [] with
  | error e => rfl
  | ok pr =>
    obtain ⟨t1, r1⟩ := pr
    cases flush_final t1 r1 with
    | error e => rfl
    | ok t2 => rfl

/-! ## Unit/Job/Microservice locator (`get_transfer_micro_service_group_elem`,
`get_job_output`, `get_job_uuid`)

The rendered transfer tab is modelled as a snapshot: the `div.sip` panels,
each carrying the DOM ids of its descendants and its micro-service group
panels; a group panel carries its `span.microservice-group-name` text and its
`div.job` rows; a job row carries its `div.job-detail-microservice span`
elements (text and `title` attribute) and the text of its
`div.job-detail-currentstep span`. -/

structure Span where
  text : PyStr
  title : PyStr
deriving DecidableEq, Repr

structure Job where
  spans : List Span
  currentStep : PyStr
deriving DecidableEq, Repr

structure MsGroup where
  nameText : PyStr
  jobs : List Job
deriving DecidableEq, Repr

structure SipDiv where
  ids : List PyStr
  groups : List MsGroup
deriving DecidableEq, Repr

structure Dom where
  sips : List SipDiv
deriving DecidableEq, Repr

/-- The first loop of `get_transfer_micro_service_group_elem` (source lines
726-733): iterate over all `div.sip` panels with no break, so the LAST panel
containing an element with id `sip-row-<uuid>` wins. -/
def find_transfer_div (sips : List SipDiv) (transfer_dom_id : PyStr) : Option SipDiv :=
  sips.foldl (fun acc e => if transfer_dom_id ∈ e.ids then some e else acc) none

/-- The second loop of `get_transfer_micro_service_group_elem` (source lines
737-746): the first group panel whose stripped name text equals
`Micro-service: <group_name>` (break on first match). -/
def find_ms_group : List MsGroup → PyStr → Option MsGroup
  | [], _ => none
  | g :: rest, expected =>
    if pyTrim g.nameText = expected then some g else find_ms_group rest expected

/-- `get_transfer_micro_service_group_elem` (source lines 721-746). -/
def get_transfer_micro_service_group_elem (d : Dom) (group_name transfer_uuid : PyStr) :
    Option MsGroup :=
  match find_transfer_div d.sips (pys "sip-row-" ++ transfer_uuid) with
  | none => none
  | some transfer_div_elem =>
    find_ms_group transfer_div_elem.groups (pys "Micro-service: " ++ group_name)

/-- The inner span scan shared by the job loops (source lines 328-331,
676-679): first `div.job` containing a microservice span whose stripped text
equals `ms_name`, together with that span. -/
def find_span : List Span → PyStr → Option Span
  | [], _ => none
  | s :: rest, ms_name =>
    if pyTrim s.text = ms_name then some s else find_span rest ms_name

def find_job_span : List Job → PyStr → Option (Job × Span)
  | [], _ => none
  | j :: rest, ms_name =>
    match find_span j.spans ms_name with
    | some s => some (j, s)
    | none => find_job_span rest ms_name

/-- Resolution of a bare name in a Python local scope: an unbound name raises
`NameError` at the point of use. -/
def pyEvalLocal (locals : List (PyStr × PyStr)) (n : PyStr) : Except PyErr PyStr :=
  match alookup locals n with
  | some v => .ok v
  | none => .error .nameError

/-- `get_job_output` (source lines 320-334).  Its first statement evaluates
the argument expression `group_name`, a name bound nowhere in the function
(the parameters are `self`, `ms_name` and `transfer_uuid`; no local, global
or builtin of that name exists in the module), so CPython raises `NameError`
before any DOM access.  Were the name bound, the body would locate the group
(an absent group, `None`, would raise `AttributeError` on the subsequent
method call) and return the matched job's stripped current-step text, or
`None` when no job row matches. -/
def get_job_output (d : Dom) (ms_name transfer_uuid : PyStr) : Except PyErr (Option PyStr) :=
  match pyEvalLocal [(pys "ms_name", ms_name), (pys "transfer_uuid", transfer_uuid)]
      (pys "group_name") with
  | .error e => .error e
  | .ok group_name =>
    match get_transfer_micro_service_group_elem d group_name transfer_uuid with
    | none => .error .attributeError
    | some ms_group_elem =>
      match find_job_span ms_group_elem.jobs ms_name with
      | some (job_elem, _) => .ok (some (pyTrim job_elem.currentStep))
      | none => .ok none

/-- The two terminal job statuses (source line 682). -/
abbrev TerminalOutput (s : PyStr) : Prop :=
  s = pys "Failed" ∨ s = pys "Completed successfully"

/-- The outcome of one poll of `get_job_uuid`'s body: either a returned value
(or raised exception), or the `time.sleep(0.5)`-then-recurse branch. -/
inductive PollStep (α : Type) where
  | done (r : α)
  | again
deriving DecidableEq, Repr

/-- One poll of `get_job_uuid` (source lines 669-691) against a DOM snapshot:
locate the group (`None` raises `AttributeError` at the subsequent
`find_elements` call), scan for the matching job span; a terminal stripped
status returns the span's stripped `title` attribute with the status, an
in-progress status sleeps and recurses (`PollStep.again`), and an absent job
row returns `(None, None)`. -/
def get_job_uuid_step (d : Dom) (ms_name group_name transfer_uuid : PyStr) :
    PollStep (Except PyErr (Option PyStr × Option PyStr)) :=
  match get_transfer_micro_service_group_elem d group_name transfer_uuid with
  | none => .done (.error .attributeError)
  | some ms_group_elem =>
    match find_job_span ms_group_elem.jobs ms_name with
    | some (job_elem, span_elem) =>
      let job_output := pyTrim job_elem.currentStep
      if TerminalOutput job_output then
        .done (.ok (some (pyTrim span_elem.title), some job_output))
      else .again
    | none => .done (.ok (none, none))

/-- `get_job_uuid`, polling the time-indexed DOM: poll the snapshot at instant
`t`; on the recurse branch, continue at instant `t + 1`.  `fuel` bounds the
modelled recursion depth; `none` means the call was still recursing when the
fuel ran out (the source recursion is unbounded). -/
def get_job_uuid (doms : Nat → Dom) (ms_name group_name transfer_uuid : PyStr) :
    Nat → Nat → Option (Except PyErr (Option PyStr × Option PyStr))
  | t, 0 =>
    match get_job_uuid_step (doms t) ms_name group_name transfer_uuid with
    | .done r => some r
    | .again => none
  | t, fuel + 1 =>
    match get_job_uuid_step (doms t) ms_name group_name transfer_uuid with
    | .done r => some r
    | .again => get_job_uuid doms ms_name group_name transfer_uuid (t + 1) fuel

/-! ## Stale-retry wrapper (`recurse_on_stale`, source lines 86-96)

An invocation of the wrapped operation is modelled by its outcome: a value, a
`StaleElementReferenceException`, or any other exception.  The wrapper is run
against the stream of outcomes that successive invocations (same arguments)
would produce; `none` models the wrapper never returning within the modelled
stream (all invocations stale). -/

inductive AttemptOutcome (α : Type) where
  | ok (a : α)
  | stale
  | err (e : PyErr)
deriving DecidableEq, Repr

/-- `recurse_on_stale`: return the operation's value; on a stale-element
failure re-invoke from the beginning; propagate any other exception. -/
def recurse_on_stale {α : Type} : List (AttemptOutcome α) → Option (Except PyErr α)
  | [] => none
  | .ok a :: _ => some (.ok a)
  | .err e :: _ => some (.error e)
  | .stale :: rest => recurse_on_stale rest

/-! ## Navigation state machine
(`navigate_to_transfer_directory_and_click`, source lines 885-906)

One whole-path attempt (`_navigate_to_transfer_directory_and_click`, lines
926-955) walks the path's segments in order from segment 0; the outcome of
clicking segment `i` during attempt `a` is given by an oracle.  The first
non-successful segment aborts the attempt with that exception. -/

inductive NavSegOutcome where
  | ok
  | timeoutExc
  | outOfViewport
  | otherExc (e : PyErr)
deriving DecidableEq, Repr

/-- Walk segments `i, i+1, ...` while `remaining` segments are left; stop at
the first failing segment. -/
def pathAttemptFrom (oracle : Nat → Nat → NavSegOutcome) (attempt : Nat) :
    Nat → Nat → NavSegOutcome
  | _, 0 => .ok
  | i, remaining + 1 =>
    match oracle attempt i with
    | .ok => pathAttemptFrom oracle attempt (i + 1) remaining
    | f => f

/-- One whole-path attempt always starts from segment 0 — a retry never
resumes at the segment that failed. -/
def pathAttempt (oracle : Nat → Nat → NavSegOutcome) (attempt nsegs : Nat) : NavSegOutcome :=
  pathAttemptFrom oracle attempt 0 nsegs

/-- `max_click_transfer_directory_tries` (source line 1128). -/
def max_click_transfer_directory_tries : Nat := 5

/-- The observable outcome of the retrying navigation, paired below with the
final value of the `click_transfer_directory_tries` counter. -/
inductive NavResult where
  | ok
  | failedPath (path : List PyStr) (orig : NavSegOutcome)
  | uncaught (e : PyErr)
deriving DecidableEq, Repr

/-- `navigate_to_transfer_directory_and_click`: run a whole-path attempt; on
success reset the counter; on `TimeoutException` or
`MoveTargetOutOfBoundsException` increment the counter and either re-run the
entire path or — at the bound — print the failure naming the path, reset the
counter, and re-raise (`NavResult.failedPath`); any other exception
propagates uncaught with the counter untouched.  Returns (final counter
value, outcome). -/
def navigate_to_transfer_directory_and_click (oracle : Nat → Nat → NavSegOutcome)
    (path : List PyStr) : Nat → Nat → Nat × NavResult
  | attempt, tries =>
    match pathAttempt oracle attempt path.length with
    | .ok => (0, .ok)
    | .otherExc e => (tries, .uncaught e)
    | .timeoutExc =>
      if h5 : tries + 1 ≥ max_click_transfer_directory_tries then
        (0, .failedPath path .timeoutExc)
      else
        navigate_to_transfer_directory_and_click oracle path (attempt + 1) (tries + 1)
    | .outOfViewport =>
      if h5 : tries + 1 ≥ max_click_transfer_directory_tries then
        (0, .failedPath path .outOfViewport)
      else
        navigate_to_transfer_directory_and_click oracle path (attempt + 1) (tries + 1)
termination_by _ tries => max_click_transfer_directory_tries - tries
decreasing_by
  all_goals simp only [max_click_transfer_directory_tries] at *
  all_goals omega

/-! ## Wait/Poll engine (`wait_for_existence`, source lines 1164-1179)

A selector's state over time is a function from poll instants to its element
state; the three Selenium expected conditions are predicates on that state. -/

inductive ElemState where
  | absent
  | hidden
  | visible
deriving DecidableEq, Repr

inductive ExistenceDetector where
  | presence_of_element_located
  | visibility_of_element_located
  | invisibility_of_element_located
deriving DecidableEq, Repr

def detector_holds : ExistenceDetector → ElemState → Bool
  | .presence_of_element_located, s => s ≠ .absent
  | .visibility_of_element_located, s => s = .visible
  | .invisibility_of_element_located, s => s ≠ .visible

/-- The class attribute `timeout = 5` (source line 114): the process-wide
default timeout. -/
def timeout : Nat := 5

/-- `if not timeout: timeout = self.timeout` (source lines 1169-1170):
an absent — or falsy, i.e. zero — per-call timeout is replaced by the
default. -/
def effective_timeout (timeoutArg : Option Nat) : Nat :=
  match timeoutArg with
  | none => timeout
  | some v => if v = 0 then timeout else v

/-- `WebDriverWait(driver, t).until(cond)`: succeeds if the condition holds at
some poll instant within the timeout, else raises `TimeoutException`. -/
def webDriverWaitUntil (dom : Nat → ElemState) (det : ExistenceDetector) (t : Nat) :
    Except PyErr Unit :=
  if (List.range (t + 1)).any (fun i => detector_holds det (dom i)) then .ok ()
  else .error .timeoutError

/-- `wait_for_existence`: wait with the effective timeout and swallow the
`TimeoutException` (`except TimeoutException: pass`), so the caller always
resumes normally. -/
def wait_for_existence (dom : Nat → ElemState) (existence_detector : ExistenceDetector)
    (timeoutArg : Option Nat) : Except PyErr Unit :=
  match webDriverWaitUntil dom existence_detector (effective_timeout timeoutArg) with
  | .ok _ => .ok ()
  | .error .timeoutError => .ok ()
  | .error e => .error e

/-- `wait_for_presence` (source lines 1142-1147). -/
def wait_for_presence (dom : Nat → ElemState) (timeoutArg : Option Nat) : Except PyErr Unit :=
  wait_for_existence dom .presence_of_element_located timeoutArg

/-- `wait_for_invisibility` (source lines 1149-1155). -/
def wait_for_invisibility (dom : Nat → ElemState) (timeoutArg : Option Nat) : Except PyErr Unit :=
  wait_for_existence dom .invisibility_of_element_located timeoutArg

/-- `wait_for_visibility` (source lines 1157-1162). -/
def wait_for_visibility (dom : Nat → ElemState) (timeoutArg : Option Nat) : Except PyErr Unit :=
  wait_for_existence dom .visibility_of_element_located timeoutArg

/-! ## Helper lemmas for the claim theorems -/

theorem alookup_upsert_self {κ ν : Type} [DecidableEq κ] (d : List (κ × ν)) (k : κ) (v : ν) :
    alookup (upsert d k v) k = some v := by
  induction d with
  | nil => simp [upsert, alookup]
  | cons p d ih =>
    obtain ⟨k1, v1⟩ := p
    by_cases h : k1 = k <;> simp [upsert, alookup, h, ih]

theorem alookup_upsert_ne {κ ν : Type} [DecidableEq κ] (d : List (κ × ν)) (k k2 : κ) (v : ν)
    (h : k2 ≠ k) : alookup (upsert d k v) k2 = alookup d k2 := by
  have h' : ¬k = k2 := fun he => h he.symm
  induction d with
  | nil => simp [upsert, alookup, h']
  | cons p d ih =>
    obtain ⟨k1, v1⟩ := p
    by_cases h1 : k1 = k
    · subst h1
      simp [upsert, alookup, h']
    · by_cases h2 : k1 = k2 <;> simp [upsert, alookup, h1, h2, ih, h]

theorem recurse_on_stale_replicate {α : Type} (n : Nat) (l : List (AttemptOutcome α)) :
    recurse_on_stale (List.replicate n .stale ++ l) = recurse_on_stale l := by
  induction n with
  | zero => simp
  | succ n ih => simpa [List.replicate_succ, recurse_on_stale] using ih

theorem intercalate_sp_ne_nil (a : PyStr) (rest : List PyStr) (ha : a ≠ []) :
    List.intercalate [' '] (a :: rest) ≠ [] := by
  cases rest with
  | nil => simpa [List.intercalate, List.intersperse] using ha
  | cons b bs => simp [List.intercalate, List.intersperse, ha]

theorem pySplitWs_mem_ne_nil {s : PyStr} {a : PyStr} (h : a ∈ pySplitWs s) : a ≠ [] := by
  have := List.mem_filter.mp h
  simpa using this.2

/-! ## The claims -/

/-- C2: on the command-row cell text `Command: convert "a b" "c"`,
`process_task_command_row` stores command `convert` and the two-element
argument list `["a b", "c"]` in the record. -/
theorem claim_C2_command_row_example (row_dict : Dict) :
    ∃ r, process_task_command_row (pys "Command: convert \"a b\" \"c\"") row_dict = .ok r ∧
      alookup r (pys "command") = some (.str (pys "convert")) ∧
      alookup r (pys "arguments") = some (.list [pys "a b", pys "c"]) := by
  refine ⟨upsert (upsert row_dict (pys "command") (.str (pys "convert")))
      (pys "arguments") (.list [pys "a b", pys "c"]), rfl, ?_, ?_⟩
  · rw [alookup_upsert_ne _ _ _ _ (by decide), alookup_upsert_self]
  · rw [alookup_upsert_self]

/-- C3: on the header-row cell text consisting of the lines
`(File UUID: 1234)` and `(File Name: foo.txt)`, `process_task_header_row`
stores `file_uuid = "1234"` and `file_name = "foo.txt"` (keys lower-cased
with spaces replaced by underscores, parentheses stripped). -/
theorem claim_C3_header_row_example (row_dict : Dict) :
    ∃ r, process_task_header_row (pys "(File UUID: 1234)\n(File Name: foo.txt)") row_dict
        = .ok r ∧
      alookup r (pys "file_uuid") = some (.str (pys "1234")) ∧
      alookup r (pys "file_name") = some (.str (pys "foo.txt")) := by
  refine ⟨upsert (upsert row_dict (pys "file_uuid") (.str (pys "1234")))
      (pys "file_name") (.str (pys "foo.txt")), rfl, ?_, ?_⟩
  · rw [alookup_upsert_ne _ _ _ _ (by decide), alookup_upsert_self]
  · rw [alookup_upsert_self]

/-- C4: `get_job_output` never scans anything — its first statement reads the
unbound name `group_name` (the function's scope binds only `self`, `ms_name`
and `transfer_uuid`), so every call raises `NameError` instead of returning a
status text or `None`. -/
theorem claim_C4_get_job_output_name_error (d : Dom) (ms_name transfer_uuid : PyStr) :
    get_job_output d ms_name transfer_uuid = .error .nameError := rfl

/-- C6: `recurse_on_stale` returns the operation's result unchanged on
success, restarts the operation from the beginning on any number of
consecutive stale-element failures (never terminating if every invocation is
stale), and propagates any other exception uncaught on first occurrence. -/
theorem claim_C6_recurse_on_stale (α : Type) (a : α) (e : PyErr) (n : Nat)
    (rest : List (AttemptOutcome α)) :
    recurse_on_stale (.ok a :: rest) = some (.ok a) ∧
    recurse_on_stale (.err e :: rest) = some (.error e) ∧
    recurse_on_stale (List.replicate n .stale ++ .ok a :: rest) = some (.ok a) ∧
    recurse_on_stale (List.replicate n .stale ++ .err e :: rest) = some (.error e) ∧
    recurse_on_stale (List.replicate n (.stale : AttemptOutcome α)) = none := by
  refine ⟨by simp [recurse_on_stale], by simp [recurse_on_stale], ?_, ?_, ?_⟩
  · rw [recurse_on_stale_replicate]
    simp [recurse_on_stale]
  · rw [recurse_on_stale_replicate]
    simp [recurse_on_stale]
  · simpa using recurse_on_stale_replicate n ([] : List (AttemptOutcome α))

/-- C8: `wait_for_existence` returns normally for every selector state
history, detector kind and timeout — a `TimeoutException` from the wait is
swallowed — and an absent per-call timeout falls back to the process-wide
default `timeout` constant. -/
theorem claim_C8_wait_for_existence_total (dom : Nat → ElemState)
    (existence_detector : ExistenceDetector) (timeoutArg : Option Nat) :
    wait_for_existence dom existence_detector timeoutArg = .ok () ∧
    effective_timeout none = timeout := by
  constructor
  · rw [wait_for_existence, webDriverWaitUntil]
    by_cases h :
        (List.range (effective_timeout timeoutArg + 1)).any
          (fun i => detector_holds existence_detector (dom i)) = true
    · simp [h]
    · simp [h]
  · rfl

/-- C10: a command row whose text after the first colon tokenizes to a single
token (a command with no arguments, e.g. `Command: ls`) makes
`process_task_command_row` raise `IndexError` at `arguments[0]`, the
inspection of the first character of the empty rejoined argument string; with
at least one argument token after the command that rejoined string is
non-empty, so that failure point is unreachable. -/
theorem claim_C10_command_row_zero_args (cellText : PyStr) (row_dict : Dict)
    (command_text command a0 : PyStr) (arest : List PyStr)
    (hseg : (pySplitChar ':' (pyTrim cellText)).get? 1 = some command_text) :
    (pySplitWs command_text = [command] →
      process_task_command_row cellText row_dict = .error (.indexError "arguments_first_char")) ∧
    (pySplitWs command_text = command :: a0 :: arest →
      process_task_command_row cellText row_dict ≠ .error (.indexError "arguments_first_char")) := by
  constructor
  · intro h
    simp only [process_task_command_row, hseg, h]
    simp [List.intercalate, List.intersperse]
  · intro h
    have ha0 : a0 ≠ [] := pySplitWs_mem_ne_nil (s := command_text) (h ▸ by simp)
    simp only [process_task_command_row, hseg, h]
    cases hI : List.intercalate [' '] (a0 :: arest) with
    | nil => exact absurd hI (intercalate_sp_ne_nil a0 arest ha0)
    | cons c cs =>
      simp only []
      cases hL : (if c = '"' then cs else c :: cs).getLast? with
      | none => simp [hL]
      | some q =>
        simp only [hL]
        by_cases hq : q = '"' <;> simp [hq]

theorem claim_C10_witness :
    process_task_command_row (pys "Command: ls") [] =
      .error (.indexError "arguments_first_char") ∧
    process_task_command_row (pys "Command: convert \"a b\" \"c\"") [] ≠
      .error (.indexError "arguments_first_char") :=
  ⟨(claim_C10_command_row_zero_args (pys "Command: ls") [] (pys " ls") (pys "ls")
      [] [] (by decide)).1 (by decide),
   (claim_C10_command_row_zero_args (pys "Command: convert \"a b\" \"c\"") []
      (pys " convert \"a b\" \"c\"") (pys "convert") (pys "\"a")
      [pys "b\"", pys "\"c\""] (by decide)).2 (by decide)⟩

/-! ### Navigation retry lemmas (C7) -/

/-- The two exception types caught by the navigation retry handler
(source line 895). -/
abbrev CaughtNav (f : NavSegOutcome) : Prop := f = .timeoutExc ∨ f = .outOfViewport

theorem nav_step_ok (oracle : Nat → Nat → NavSegOutcome) (path : List PyStr)
    (attempt tries : Nat) (hok : pathAttempt oracle attempt path.length = .ok) :
    navigate_to_transfer_directory_and_click oracle path attempt tries = (0, .ok) := by
  rw [navigate_to_transfer_directory_and_click, hok]

theorem nav_step_retry (oracle : Nat → Nat → NavSegOutcome) (path : List PyStr)
    (attempt tries : Nat) (hf : CaughtNav (pathAttempt oracle attempt path.length))
    (hlt : tries + 1 < max_click_transfer_directory_tries) :
    navigate_to_transfer_directory_and_click oracle path attempt tries =
      navigate_to_transfer_directory_and_click oracle path (attempt + 1) (tries + 1) := by
  rcases hf with hf | hf <;>
    · rw [navigate_to_transfer_directory_and_click, hf]
      dsimp only
      rw [dif_neg (by omega)]

theorem nav_step_raise (oracle : Nat → Nat → NavSegOutcome) (path : List PyStr)
    (attempt tries : Nat) (hf : CaughtNav (pathAttempt oracle attempt path.length))
    (hge : tries + 1 ≥ max_click_transfer_directory_tries) :
    navigate_to_transfer_directory_and_click oracle path attempt tries =
      (0, .failedPath path (pathAttempt oracle attempt path.length)) := by
  rcases hf with hf | hf <;>
    · rw [navigate_to_transfer_directory_and_click, hf]
      dsimp only
      rw [dif_pos hge]

theorem nav_consecutive_failures (oracle : Nat → Nat → NavSegOutcome) (path : List PyStr)
    (k : Nat) :
    ∀ attempt tries,
      (∀ i, i < k → CaughtNav (pathAttempt oracle (attempt + i) path.length)) →
      tries + k < max_click_transfer_directory_tries →
      navigate_to_transfer_directory_and_click oracle path attempt tries =
        navigate_to_transfer_directory_and_click oracle path (attempt + k) (tries + k) := by
  induction k with
  | zero => intro attempt tries _ _; rfl
  | succ k ih =>
    intro attempt tries hfail hlt
    rw [nav_step_retry oracle path attempt tries (by simpa using hfail 0 (by omega)) (by omega)]
    rw [ih (attempt + 1) (tries + 1)
      (fun i hi => by
        have := hfail (i + 1) (by omega)
        simpa [Nat.add_assoc, Nat.add_comm 1 i] using this)
      (by omega)]
    congr 1 <;> omega

/-- C7: `navigate_to_transfer_directory_and_click` retries on a timeout or
out-of-viewport failure by re-running the whole path — each attempt is a
fresh `pathAttempt` beginning at segment 0 — with the bound
`max_click_transfer_directory_tries = 5`; the fifth consecutive whole-path
failure raises the terminal failure naming the path with the counter reset to
zero, and any successful attempt returns with the counter reset to zero. -/
theorem claim_C7_navigation_retry (oracle : Nat → Nat → NavSegOutcome) (path : List PyStr)
    (a0 k : Nat) (hk : k ≤ 4) :
    max_click_transfer_directory_tries = 5 ∧
    (CaughtNav (pathAttempt oracle a0 path.length) →
      navigate_to_transfer_directory_and_click oracle path a0 0 =
        navigate_to_transfer_directory_and_click oracle path (a0 + 1) 1) ∧
    ((∀ i, i < 4 → CaughtNav (pathAttempt oracle (a0 + i) path.length)) →
      CaughtNav (pathAttempt oracle (a0 + 4) path.length) →
      navigate_to_transfer_directory_and_click oracle path a0 0 =
        (0, .failedPath path (pathAttempt oracle (a0 + 4) path.length))) ∧
    ((∀ i, i < k → CaughtNav (pathAttempt oracle (a0 + i) path.length)) →
      pathAttempt oracle (a0 + k) path.length = .ok →
      navigate_to_transfer_directory_and_click oracle path a0 0 = (0, .ok)) := by
  refine ⟨rfl, ?_, ?_, ?_⟩
  · intro hf
    exact nav_step_retry oracle path a0 0 hf
      (by unfold max_click_transfer_directory_tries; omega)
  · intro hfail hlast
    rw [nav_consecutive_failures oracle path 4 a0 0 hfail
      (by unfold max_click_transfer_directory_tries; omega)]
    exact nav_step_raise oracle path (a0 + 4) 4 hlast
      (by unfold max_click_transfer_directory_tries; omega)
  · intro hfail hok
    rw [nav_consecutive_failures oracle path k a0 0 hfail
      (by unfold max_click_transfer_directory_tries; omega)]
    simpa using nav_step_ok oracle path (a0 + k) k hok

theorem claim_C7_witness :
    navigate_to_transfer_directory_and_click
        (fun a _ => if a < 4 then NavSegOutcome.timeoutExc else NavSegOutcome.ok)
        [pys "vagrant", pys "archivematica-sampledata"] 0 0 = (0, NavResult.ok) ∧
    navigate_to_transfer_directory_and_click
        (fun _ _ => NavSegOutcome.timeoutExc)
        [pys "vagrant", pys "archivematica-sampledata"] 0 0 =
      (0, NavResult.failedPath [pys "vagrant", pys "archivematica-sampledata"]
            NavSegOutcome.timeoutExc) :=
  ⟨(claim_C7_navigation_retry
      (fun a _ => if a < 4 then NavSegOutcome.timeoutExc else NavSegOutcome.ok)
      [pys "vagrant", pys "archivematica-sampledata"] 0 4 (by omega)).2.2.2
      (by decide) (by decide),
   (claim_C7_navigation_retry (fun _ _ => NavSegOutcome.timeoutExc)
      [pys "vagrant", pys "archivematica-sampledata"] 0 0 (by omega)).2.2.1
      (by decide) (by decide)⟩

/-! ### Job-terminal polling (C5) -/

theorem get_job_uuid_terminal (doms : Nat → Dom) (ms_name group_name transfer_uuid : PyStr)
    (jb : Job) (sp : Span) :
    ∀ k t fuel, k ≤ fuel →
    (∀ i, i < k → ∃ gr j s,
        get_transfer_micro_service_group_elem (doms (t + i)) group_name transfer_uuid
          = some gr ∧
        find_job_span gr.jobs ms_name = some (j, s) ∧
        ¬TerminalOutput (pyTrim j.currentStep)) →
    (∃ gr,
        get_transfer_micro_service_group_elem (doms (t + k)) group_name transfer_uuid
          = some gr ∧
        find_job_span gr.jobs ms_name = some (jb, sp) ∧
        TerminalOutput (pyTrim jb.currentStep)) →
    get_job_uuid doms ms_name group_name transfer_uuid t fuel =
      some (.ok (some (pyTrim sp.title), some (pyTrim jb.currentStep))) := by
  intro k
  induction k with
  | zero =>
    intro t fuel _ _ hterm
    obtain ⟨gr, h1, h2, h3⟩ := hterm
    rw [Nat.add_zero] at h1
    have hstep : get_job_uuid_step (doms t) ms_name group_name transfer_uuid =
        .done (.ok (some (pyTrim sp.title), some (pyTrim jb.currentStep))) := by
      simp only [get_job_uuid_step, h1, h2]
      rw [if_pos h3]
    cases fuel <;> simp [get_job_uuid, hstep]
  | succ k ih =>
    intro t fuel hfuel hprog hterm
    obtain ⟨gr, j, s, h1, h2, h3⟩ := hprog 0 (by omega)
    rw [Nat.add_zero] at h1
    have hstep : get_job_uuid_step (doms t) ms_name group_name transfer_uuid = .again := by
      simp only [get_job_uuid_step, h1, h2]
      rw [if_neg h3]
    cases fuel with
    | zero => omega
    | succ f =>
      rw [get_job_uuid, hstep]
      refine ih (t + 1) f (by omega) ?_ ?_
      · intro i hi
        have := hprog (i + 1) (by omega)
        simpa [Nat.add_comm, Nat.add_left_comm, Nat.add_assoc] using this
      · have := hterm
        simpa [Nat.add_comm, Nat.add_left_comm, Nat.add_assoc] using this

/-- C5 (amended): `get_job_uuid` keeps backing off and re-polling while the
matched job's status is non-terminal, and once a poll observes one of the two
terminal statuses it returns the matching span's stripped `title` attribute
together with that status; but contrary to the claim it does NOT recurse when
the job row is absent: with the group located and no matching job row it
returns `(None, None)` immediately, and with the group itself absent it
raises `AttributeError` on `None`. -/
theorem claim_C5_get_job_uuid_amended (doms : Nat → Dom)
    (ms_name group_name transfer_uuid : PyStr) (t k fuel : Nat) (jb : Job) (sp : Span)
    (hfuel : k ≤ fuel)
    (hprog : ∀ i, i < k → ∃ gr j s,
        get_transfer_micro_service_group_elem (doms (t + i)) group_name transfer_uuid
          = some gr ∧
        find_job_span gr.jobs ms_name = some (j, s) ∧
        ¬TerminalOutput (pyTrim j.currentStep))
    (hterm : ∃ gr,
        get_transfer_micro_service_group_elem (doms (t + k)) group_name transfer_uuid
          = some gr ∧
        find_job_span gr.jobs ms_name = some (jb, sp) ∧
        TerminalOutput (pyTrim jb.currentStep)) :
    get_job_uuid doms ms_name group_name transfer_uuid t fuel =
      some (.ok (some (pyTrim sp.title), some (pyTrim jb.currentStep))) ∧
    (∀ t2 f2,
      get_transfer_micro_service_group_elem (doms t2) group_name transfer_uuid = none →
      get_job_uuid doms ms_name group_name transfer_uuid t2 f2 =
        some (.error .attributeError)) ∧
    (∀ t2 f2 gr,
      get_transfer_micro_service_group_elem (doms t2) group_name transfer_uuid = some gr →
      find_job_span gr.jobs ms_name = none →
      get_job_uuid doms ms_name group_name transfer_uuid t2 f2 = some (.ok (none, none))) := by
  refine ⟨get_job_uuid_terminal doms ms_name group_name transfer_uuid jb sp k t fuel
    hfuel hprog hterm, ?_, ?_⟩
  · intro t2 f2 h
    have hstep : get_job_uuid_step (doms t2) ms_name group_name transfer_uuid =
        .done (.error .attributeError) := by
      simp only [get_job_uuid_step, h]
    cases f2 <;> simp [get_job_uuid, hstep]
  · intro t2 f2 gr h1 h2
    have hstep : get_job_uuid_step (doms t2) ms_name group_name transfer_uuid =
        .done (.ok (none, none)) := by
      simp only [get_job_uuid_step, h1, h2]
    cases f2 <;> simp [get_job_uuid, hstep]

theorem claim_C5_witness :
    get_job_uuid
      (fun _ => Dom.mk [SipDiv.mk [pys "sip-row-U2"]
        [MsGroup.mk (pys "Micro-service: G2")
          [Job.mk [Span.mk (pys "MS2") (pys "JUID")] (pys "Completed successfully")]]])
      (pys "MS2") (pys "G2") (pys "U2") 0 0 =
      some (.ok (some (pys "JUID"), some (pys "Completed successfully"))) :=
  (claim_C5_get_job_uuid_amended
    (fun _ => Dom.mk [SipDiv.mk [pys "sip-row-U2"]
      [MsGroup.mk (pys "Micro-service: G2")
        [Job.mk [Span.mk (pys "MS2") (pys "JUID")] (pys "Completed successfully")]]])
    (pys "MS2") (pys "G2") (pys "U2") 0 0 0
    (Job.mk [Span.mk (pys "MS2") (pys "JUID")] (pys "Completed successfully"))
    (Span.mk (pys "MS2") (pys "JUID")) (Nat.le_refl 0)
    (fun i hi => absurd hi (Nat.not_lt_zero i))
    ⟨MsGroup.mk (pys "Micro-service: G2")
      [Job.mk [Span.mk (pys "MS2") (pys "JUID")] (pys "Completed successfully")],
      by decide, by decide, by decide⟩).1

/-- C5 counterexample: with the group present but no matching job row,
`get_job_uuid` returns — the pair `(None, None)`, which carries no terminal
status and no identifier — instead of backing off and recursing as the claim
states. -/
theorem claim_C5_counterexample :
    ¬(∀ r, get_job_uuid
        (fun _ => Dom.mk [SipDiv.mk [pys "sip-row-U"]
          [MsGroup.mk (pys "Micro-service: G") []]])
        (pys "MS") (pys "G") (pys "U") 0 3 = some (.ok r) →
      ∃ jid out, r = (some jid, some out) ∧ TerminalOutput out) := by
  intro hcl
  obtain ⟨jid, out, heq, _⟩ := hcl (none, none) (by decide)
  simp at heq

/-- C1 (amended): for a table of `N ≥ 1` well-formed header-row groups with
pairwise-distinct file-UUID keys, `parse_tasks_table` produces exactly `N`
records — one per group, keyed by its file-UUID value, the last group flushed
at end-of-table — but for `N = 0` the unconditional final flush raises
`KeyError` on the empty pending record instead of producing an empty
mapping. -/
theorem claim_C1_parse_tasks_table_amended (gs : List TaskGroup) (ps : List (PyStr × Dict))
    (hgs : List.Forall₂ GroupSpec gs ps) (hnd : (ps.map Prod.fst).Nodup) (hne : gs ≠ []) :
    parse_tasks_table [Page.mk (tableRows gs) []] [] =
      .ok (ps.map (fun p => (Val.str p.1, p.2))) ∧
    (ps.map (fun p => (Val.str p.1, p.2))).length = gs.length ∧
    parse_tasks_table [Page.mk [] []] [] = .error .keyError := by
  refine ⟨?_, ?_, by decide⟩
  · cases gs with
    | nil => exact absurd rfl hne
    | cons g gs' =>
      rw [parse_tasks_table_cons]
      dsimp only
      rw [scrape_rows_groups g gs' ps [] hgs]
      dsimp only [find_next_link, List.foldl_nil]
      rw [expectedTasks_eq_append ps [] hnd (fun p _ => rfl)]
      simp
  · rw [List.length_map, List.Forall₂.length_eq hgs]

theorem claim_C1_witness :
    parse_tasks_table
      [Page.mk (tableRows
        [TaskGroup.mk (Row.mk (pys "even") false false (pys "(File UUID: 1234)") []) []]) []]
      [] =
      .ok [(Val.str (pys "1234"), [(pys "file_uuid", Val.str (pys "1234"))])] ∧
    ([(Val.str (pys "1234"), [(pys "file_uuid", Val.str (pys "1234"))])] : Tasks).length = 1 ∧
    parse_tasks_table [Page.mk [] []] [] = .error .keyError :=
  claim_C1_parse_tasks_table_amended
    [TaskGroup.mk (Row.mk (pys "even") false false (pys "(File UUID: 1234)") []) []]
    [(pys "1234", [(pys "file_uuid", Val.str (pys "1234"))])]
    (List.Forall₂.cons (by decide) List.Forall₂.nil) (by decide) (by decide)

/-- C1 counterexample: on the empty table (zero header-row groups) the claim
demands the empty `tasks` mapping, but the scraper's unguarded final flush
raises `KeyError` looking up `file_uuid` in the empty pending record. -/
theorem claim_C1_counterexample_empty_table :
    parse_tasks_table [Page.mk [] []] [] = .error .keyError ∧
    parse_tasks_table [Page.mk [] []] [] ≠ .ok [] :=
  ⟨by decide, by decide⟩

/-- C9: for a tasks table split across two pages of `M` and `K` well-formed
header-row groups (`M, K ≥ 1`, pairwise-distinct file-UUID keys), the scraper
follows the `Next Page` control, accumulates both pages into one mapping,
stops when no such control remains, and delivers exactly `M + K` records with
no duplicate keys. -/
theorem claim_C9_pagination (gs1 gs2 : List TaskGroup) (ps1 ps2 : List (PyStr × Dict))
    (nextHref : PyStr)
    (h1 : List.Forall₂ GroupSpec gs1 ps1) (h2 : List.Forall₂ GroupSpec gs2 ps2)
    (hnd : ((ps1 ++ ps2).map Prod.fst).Nodup) (hne1 : gs1 ≠ []) (hne2 : gs2 ≠ []) :
    parse_tasks_table
        [Page.mk (tableRows gs1) [(pys "Next Page", nextHref)],
         Page.mk (tableRows gs2) []] [] =
      .ok ((ps1 ++ ps2).map (fun p => (Val.str p.1, p.2))) ∧
    ((ps1 ++ ps2).map (fun p => (Val.str p.1, p.2))).length = gs1.length + gs2.length ∧
    (((ps1 ++ ps2).map (fun p => (Val.str p.1, p.2))).map Prod.fst).Nodup := by
  refine ⟨?_, ?_, ?_⟩
  · cases gs1 with
    | nil => exact absurd rfl hne1
    | cons g1 gs1' =>
      cases gs2 with
      | nil => exact absurd rfl hne2
      | cons g2 gs2' =>
        rw [parse_tasks_table_cons]
        dsimp only
        rw [scrape_rows_groups g1 gs1' ps1 [] h1]
        dsimp only [find_next_link, List.foldl_cons, List.foldl_nil]
        rw [if_pos (by decide : pyTrim (pys "Next Page") = pys "Next Page")]
        dsimp only
        rw [parse_tasks_table_cons]
        dsimp only
        rw [scrape_rows_groups g2 gs2' ps2 (expectedTasks [] ps1) h2]
        dsimp only [find_next_link, List.foldl_nil]
        have hjoin : expectedTasks (expectedTasks [] ps1) ps2 = expectedTasks [] (ps1 ++ ps2) := by
          simp [expectedTasks, List.foldl_append]
        rw [hjoin, expectedTasks_eq_append (ps1 ++ ps2) [] hnd (fun p _ => rfl)]
        simp
  · rw [List.length_map, List.length_append,
      List.Forall₂.length_eq h1, List.Forall₂.length_eq h2]
  · have hinj : Function.Injective (fun s : PyStr => Val.str s) := fun a b hab => by
      injection hab
    have := hnd.map hinj
    simpa [List.map_map, Function.comp] using this

theorem claim_C9_witness :
    parse_tasks_table
      [Page.mk (tableRows
          [TaskGroup.mk (Row.mk (pys "even") false false (pys "(File UUID: 1234)") []) []])
        [(pys "Next Page", pys "/tasks/x/?page=2")],
       Page.mk (tableRows
          [TaskGroup.mk (Row.mk (pys "odd") false false (pys "(File UUID: 5678)") []) []])
        []] [] =
      .ok [(Val.str (pys "1234"), [(pys "file_uuid", Val.str (pys "1234"))]),
           (Val.str (pys "5678"), [(pys "file_uuid", Val.str (pys "5678"))])] ∧
    ([(Val.str (pys "1234"), [(pys "file_uuid", Val.str (pys "1234"))]),
      (Val.str (pys "5678"), [(pys "file_uuid", Val.str (pys "5678"))])] : Tasks).length
      = 1 + 1 ∧
    (([(Val.str (pys "1234"), [(pys "file_uuid", Val.str (pys "1234"))]),
       (Val.str (pys "5678"), [(pys "file_uuid", Val.str (pys "5678"))])] : Tasks).map
        Prod.fst).Nodup :=
  claim_C9_pagination
    [TaskGroup.mk (Row.mk (pys "even") false false (pys "(File UUID: 1234)") []) []]
    [TaskGroup.mk (Row.mk (pys "odd") false false (pys "(File UUID: 5678)") []) []]
    [(pys "1234", [(pys "file_uuid", Val.str (pys "1234"))])]
    [(pys "5678", [(pys "file_uuid", Val.str (pys "5678"))])]
    (pys "/tasks/x/?page=2")
    (List.Forall₂.cons (by decide) List.Forall₂.nil)
    (List.Forall₂.cons (by decide) List.Forall₂.nil)
    (by decide) (by decide) (by decide)

end ArchSel
